import Mathlib

/-!
# upterm: the server routing proxy and the `session` sub-commands

A shallow embedding of `server/proxy.go` and `cmd/upterm/command/session.go`.

Conventions of the embedding

* Go `string` and `[]byte` values are Lean `String`s (`string(b)` is the identity).
* A Go `error` is `Option GoError` (`none` is the nil error); a Go pointer result that may be
  nil is an `Option`.
* Collaborators that `server/proxy.go` only reaches through an interface value
  (`SessionService`, `SSHDDialListener`, `SessionDialListener`) or through another package
  (`api.DecodeIdentifier`, `ssh.MarshalAuthorizedKey`) are parameters.  The stateful ones
  thread an explicit world `W`.
* `Routing` is declared in `server/routing.go`, which is not among the sources.  Its method
  `Serve` is a parameter; its method `Shutdown` is modelled from the spec.
* Every call that leaves `findUpstream` is recorded, in program order, in a list of `Call`s.
* `sync.Mutex` is not modelled: every method is run from start to end without interleaving.
-/

namespace Upterm

/-! ## Go errors -/

/-- Go error values: a plain error carrying its message, or the value built by `fmt.Errorf`
with a `%w` verb, which carries the formatted message and the wrapped error. -/
inductive GoError where
  | leaf (msg : String)
  | wrapped (msg : String) (inner : GoError)
  deriving DecidableEq, Repr

/-- Method `Error()` of a Go error. -/
def GoError.Error : GoError → String
  | .leaf m => m
  | .wrapped m _ => m

/-- Method `Unwrap()` as used by `errors.Unwrap`: the wrapped error, if there is one. -/
def GoError.Unwrap : GoError → Option GoError
  | .leaf _ => none
  | .wrapped _ e => some e

/-- Call `fmt.Errorf("error decoding identifier from user %s: %w", user, err)`
(`server/proxy.go`, line 60). -/
def errorfDecoding (user : String) (err : GoError) : GoError :=
  .wrapped ("error decoding identifier from user " ++ user ++ ": " ++ err.Error) err

/-- Call `fmt.Errorf(format)` without verbs: a plain error with that message. -/
def errorfPlain (msg : String) : GoError := .leaf msg

/-! ## Data of `server/proxy.go` -/

/-- Modelled from the spec: the enum `api.Identifier_Type` is declared in `host/api`, which is
not among the sources; the spec gives the identifier type as `HOST|CLIENT`. -/
inductive Identifier_Type where
  | HOST
  | CLIENT
  deriving DecidableEq, Repr

/-- Modelled from the spec: the record `api.Identifier` (`{type, id, nodeAddr}`), declared in
`host/api`.  `findUpstream` reads `Type` (here `Type_`) and `Id`. -/
structure Identifier where
  Type_ : Identifier_Type
  Id : String
  NodeAddr : String
  deriving DecidableEq, Repr

/-- Modelled from the spec: the session descriptor returned by `SessionService.GetSession`
(`{id, nodeAddr, hostUser, ...}`), declared elsewhere in package `server`.  `findUpstream`
reads `ID`. -/
structure Session where
  ID : String
  NodeAddr : String
  HostUser : String
  deriving DecidableEq, Repr

/-- The part of `ssh.ConnMetadata` that is plain data. -/
structure ConnMetadata where
  User : String
  SessionID : String
  ClientVersion : String
  ServerVersion : String
  RemoteAddr : String
  LocalAddr : String
  deriving DecidableEq, Repr

/-- Argument `challengeCtx` of `findUpstream`; the function never reads it. -/
structure AdditionalChallengeContext where
  raw : String
  deriving DecidableEq, Repr

/-- The verdicts `ssh.AuthPipeType*` an `AuthPipe` callback answers with. -/
inductive AuthPipeType where
  | AuthPipeTypeNone
  | AuthPipeTypePassThrough
  | AuthPipeTypeMap
  | AuthPipeTypeDiscard
  deriving DecidableEq, Repr

/-- The `ssh.AuthMethod` values: `ssh.Password(secret)` is the one this file builds;
`PublicKeys` stands for the library's signer based method. -/
inductive AuthMethod where
  | Password (secret : String)
  | PublicKeys (signers : List String)
  deriving DecidableEq, Repr

/-- Result triple `(ssh.AuthPipeType, ssh.AuthMethod, error)` of an `AuthPipe` callback. -/
structure AuthVerdict where
  type : AuthPipeType
  method : Option AuthMethod
  err : Option GoError
  deriving DecidableEq, Repr

/-- Type `ssh.HostKeyCallback`: `func(hostname string, remote net.Addr, key PublicKey) error`. -/
abbrev HostKeyCallback (PK : Type) := String → String → PK → Option GoError

/-- Modelled from the spec: `ssh.InsecureIgnoreHostKey()` lives in the ssh library, not in the
sources; the spec describes the callback installed here as "upstream host key → accept
unconditionally", so the callback returns the nil error for every host key. -/
def InsecureIgnoreHostKey (PK : Type) : HostKeyCallback PK :=
  fun _ _ _ => none

/-- Struct `ssh.AuthPipe` with the five fields `findUpstream` sets. -/
structure AuthPipe (PK : Type) where
  User : String
  NoneAuthCallback : ConnMetadata → AuthVerdict
  PasswordCallback : ConnMetadata → String → AuthVerdict
  PublicKeyCallback : ConnMetadata → PK → AuthVerdict
  UpstreamHostKeyCallback : HostKeyCallback PK

/-- Package level functions of other packages that `server/proxy.go` calls. -/
structure Pkg (PK : Type) where
  DecodeIdentifier : String → String → Except GoError Identifier
  MarshalAuthorizedKey : PK → String

/-- Interface `SessionService`, as far as the proxy uses it.  A Go `(*Session, error)` result
is taken to hold a session exactly when the error is nil. -/
structure SessionService (W : Type) where
  GetSession : String → W → Except GoError Session × W

/-- Interface `SSHDDialListener`: `Dial() (net.Conn, error)`. -/
structure SSHDDialListener (W Conn : Type) where
  Dial : W → (Option Conn × Option GoError) × W

/-- Interface `SessionDialListener`: `Dial(id string) (net.Conn, error)`. -/
structure SessionDialListener (W Conn : Type) where
  Dial : String → W → (Option Conn × Option GoError) × W

/-- Struct `Proxy`.  `routing` is the `*Routing` pointer: `none` is nil, `some a` is the
address `a` of a `Routing` in the heap.  The mutex has no counterpart. -/
structure Proxy (W Conn : Type) where
  HostSigners : List String
  SessionService : SessionService W
  SSHDDialListener : SSHDDialListener W Conn
  SessionDialListener : SessionDialListener W Conn
  UpstreamNode : Bool
  Logger : String
  MetricsProvider : String
  routing : Option Nat

/-- Calls that leave `findUpstream`, in program order. -/
inductive Call where
  | DecodeIdentifier (user clientVersion : String)
  | SSHDDial
  | GetSession (id : String)
  | SessionDial (id : String)
  | LogInfo (field value msg : String)
  | LogDebug (err : GoError) (field value msg : String)
  deriving DecidableEq, Repr

/-- Result triple `(net.Conn, *ssh.AuthPipe, error)` of `findUpstream`. -/
structure Upstream (Conn PK : Type) where
  conn : Option Conn
  pipe : Option (AuthPipe PK)
  err : Option GoError

/-- One run of `findUpstream`: what it returned, the world it left, the calls it made. -/
structure Run (W Conn PK : Type) where
  result : Upstream Conn PK
  world : W
  calls : List Call

/-! ## The AuthPipe callbacks (`server/proxy.go`, lines 102-126) -/

section Callbacks

variable {W Conn PK : Type}

/-- Method `discardPublicKeyCallback`. -/
def Proxy.discardPublicKeyCallback (_r : Proxy W Conn) (_conn : ConnMetadata) (_key : PK) :
    AuthVerdict :=
  ⟨.AuthPipeTypeDiscard, none, none⟩

/-- Method `passThroughPasswordCallback`. -/
def Proxy.passThroughPasswordCallback (_r : Proxy W Conn) (_conn : ConnMetadata)
    (_password : String) : AuthVerdict :=
  ⟨.AuthPipeTypePassThrough, none, none⟩

/-- Method `convertToPasswordPublicKeyCallback`: the public key becomes a password holding its
authorized-keys line. -/
def Proxy.convertToPasswordPublicKeyCallback (pkg : Pkg PK) (_r : Proxy W Conn)
    (_conn : ConnMetadata) (key : PK) : AuthVerdict :=
  let authorizedKey := pkg.MarshalAuthorizedKey key
  ⟨.AuthPipeTypeMap, some (.Password authorizedKey), none⟩

/-- Method `noneCallback`. -/
def Proxy.noneCallback (_r : Proxy W Conn) (_conn : ConnMetadata) : AuthVerdict :=
  ⟨.AuthPipeTypeNone, none, none⟩

/-- Method `discardPasswordCallback`. -/
def Proxy.discardPasswordCallback (_r : Proxy W Conn) (_conn : ConnMetadata)
    (_password : String) : AuthVerdict :=
  ⟨.AuthPipeTypeDiscard, none, none⟩

end Callbacks

/-! ## `findUpstream` (`server/proxy.go`, lines 51-100) -/

section FindUpstream

variable {W Conn PK : Type}

/-- Lines 80-98 of `findUpstream`: the `AuthPipe` built for the user `user`, by
`r.UpstreamNode`. -/
def Proxy.authPipe (pkg : Pkg PK) (r : Proxy W Conn) (user : String) : AuthPipe PK :=
  if r.UpstreamNode then
    { User := user
      NoneAuthCallback := r.noneCallback
      PasswordCallback := r.passThroughPasswordCallback
      PublicKeyCallback := r.discardPublicKeyCallback
      UpstreamHostKeyCallback := InsecureIgnoreHostKey PK }
  else
    { User := user
      NoneAuthCallback := r.noneCallback
      PasswordCallback := r.discardPasswordCallback
      PublicKeyCallback := r.convertToPasswordPublicKeyCallback pkg
      UpstreamHostKeyCallback := InsecureIgnoreHostKey PK }

/-- Lines 76-79 and 99 of `findUpstream`: the check of the dial error and the final return.
`d` is the pair `(c, err)` the dial left, `w` the world after it, `calls` the calls made so
far. -/
def Proxy.pipeForDial (pkg : Pkg PK) (r : Proxy W Conn) (user : String)
    (d : Option Conn × Option GoError) (w : W) (calls : List Call) : Run W Conn PK :=
  match d.2 with
  | some err => ⟨⟨none, none, some err⟩, w, calls⟩
  | none =>
    let pipe : AuthPipe PK := r.authPipe pkg user
    ⟨⟨d.1, some pipe, none⟩, w, calls⟩

/-- Method `findUpstream`, started in world `w`. -/
def Proxy.findUpstream (pkg : Pkg PK) (r : Proxy W Conn) (conn : ConnMetadata)
    (_challengeCtx : AdditionalChallengeContext) (w : W) : Run W Conn PK :=
  let user := conn.User
  let decode := Call.DecodeIdentifier user conn.ClientVersion
  match pkg.DecodeIdentifier user conn.ClientVersion with
  | .error err => ⟨⟨none, none, some (errorfDecoding user err)⟩, w, [decode]⟩
  | .ok id =>
    if id.Type_ = Identifier_Type.HOST then
      let d := r.SSHDDialListener.Dial w
      r.pipeForDial pkg user d.1 d.2
        [decode, Call.LogInfo "user" id.Id "dialing sshd", Call.SSHDDial]
    else
      match r.SessionService.GetSession id.Id w with
      | (.error ee, w1) =>
        ⟨⟨none, none, some ee⟩, w1,
          [decode, Call.GetSession id.Id,
            Call.LogDebug ee "session" id.Id "error getting session"]⟩
      | (.ok session, w1) =>
        let d := r.SessionDialListener.Dial session.ID w1
        r.pipeForDial pkg user d.1 d.2
          [decode, Call.GetSession id.Id, Call.LogInfo "session" session.ID "dialing session",
            Call.SessionDial session.ID]

/-- Whether a call is an upstream dial (`SSHDDialListener.Dial` or `SessionDialListener.Dial`). -/
def Call.isDial : Call → Bool
  | .SSHDDial => true
  | .SessionDial _ => true
  | _ => false

/-- Number of upstream dials in a list of calls. -/
def dialCount (calls : List Call) : Nat :=
  (calls.filter Call.isDial).length

/-- Whether a call is `SSHDDialListener.Dial`. -/
def Call.isSSHDDial : Call → Bool
  | .SSHDDial => true
  | _ => false

/-- Whether a call is `SessionDialListener.Dial`. -/
def Call.isSessionDial : Call → Bool
  | .SessionDial _ => true
  | _ => false

/-- Whether a call is `SessionService.GetSession`. -/
def Call.isGetSession : Call → Bool
  | .GetSession _ => true
  | _ => false

end FindUpstream

/-! ## `Serve` and `Shutdown` (`server/proxy.go`, lines 27-49) -/

section Lifecycle

variable {W Conn PK R : Type}

/-- Argument `ln net.Listener` of `Serve`, named by the address it listens on. -/
structure Listener where
  addr : String
  deriving DecidableEq, Repr

/-- Struct `Routing` of `server/routing.go`, which is not among the sources: the four fields
the composite literal in `Proxy.Serve` sets, and `rest` for whatever else the struct holds.
`FindUpstreamFunc` holds the method value `r.findUpstream`; since neither `Serve` nor
`Shutdown` writes a field that `findUpstream` reads, the method value is the function of the
proxy at the time of the call. -/
structure Routing (W Conn PK R : Type) where
  HostSigners : List String
  Logger : String
  FindUpstreamFunc : ConnMetadata → AdditionalChallengeContext → W → Run W Conn PK
  MetricsProvider : String
  rest : R

/-- The methods of `Routing` that `server/proxy.go` calls, and the zero value of the fields the
composite literal does not set.  Each method returns the `Routing` as it left it and its
error result. -/
structure RoutingMethods (W Conn PK R : Type) where
  zero : R
  Serve : Routing W Conn PK R → Listener → Routing W Conn PK R × Option GoError
  Shutdown : Routing W Conn PK R → Routing W Conn PK R × Option GoError

/-- Modelled from the spec: method `Routing.Shutdown` of `server/routing.go`, which is not
among the sources.  The spec has the Routing "shut down at `Shutdown`" and `Shutdown`
idempotent ("`Shutdown` called twice returns `Ok` both times"): the method returns the nil
error in whatever state it finds the Routing.  What it does to the fields of the Routing that
the proxy never reads is left to `stop`. -/
def Routing.Shutdown (stop : R → R) (rt : Routing W Conn PK R) :
    Routing W Conn PK R × Option GoError :=
  ({ rt with rest := stop rt.rest }, none)

/-- The methods `m` with `Shutdown` as the spec describes it. -/
def RoutingMethods.withSpecShutdown (m : RoutingMethods W Conn PK R) (stop : R → R) :
    RoutingMethods W Conn PK R :=
  { m with Shutdown := Routing.Shutdown stop }

/-- The memory `Serve` and `Shutdown` work on: the `Proxy` struct behind the receiver pointer
and the `Routing` objects allocated so far; the address of a `Routing` is its index. -/
structure Mem (W Conn PK R : Type) where
  proxy : Proxy W Conn
  heap : List (Routing W Conn PK R)

/-- The composite literal `&Routing{...}` of `Proxy.Serve`, lines 40-45. -/
def Proxy.newRouting (pkg : Pkg PK) (m : RoutingMethods W Conn PK R) (r : Proxy W Conn) :
    Routing W Conn PK R :=
  { HostSigners := r.HostSigners
    Logger := r.Logger
    FindUpstreamFunc := r.findUpstream pkg
    MetricsProvider := r.MetricsProvider
    rest := m.zero }

/-- Lines 39-46 of `Proxy.Serve`: allocate the `Routing` and store its address in
`r.routing`. -/
def Proxy.installRouting (pkg : Pkg PK) (m : RoutingMethods W Conn PK R)
    (s : Mem W Conn PK R) : Mem W Conn PK R :=
  { proxy := { s.proxy with routing := some s.heap.length }
    heap := s.heap ++ [s.proxy.newRouting pkg m] }

/-- Whether the pointer `r.routing` is nil or the address of an allocated `Routing`.  A fresh
proxy has it so, and `Serve` and `Shutdown` keep it so. -/
def Mem.handleValid (s : Mem W Conn PK R) : Bool :=
  match s.proxy.routing with
  | none => true
  | some a => decide (a < s.heap.length)

/-- Call of a `Routing` method through the pointer `r.routing`.  `none` is the run-time fault
of a nil or dangling pointer. -/
def Mem.callRouting (s : Mem W Conn PK R)
    (f : Routing W Conn PK R → Routing W Conn PK R × Option GoError) :
    Option (Mem W Conn PK R × Option GoError) :=
  match s.proxy.routing with
  | none => none
  | some a =>
    match s.heap[a]? with
    | none => none
    | some rt => some ({ s with heap := s.heap.set a (f rt).1 }, (f rt).2)

/-- Method `Proxy.Shutdown`. -/
def Proxy.Shutdown (m : RoutingMethods W Conn PK R) (s : Mem W Conn PK R) :
    Option (Mem W Conn PK R × Option GoError) :=
  if s.proxy.routing ≠ none then
    s.callRouting m.Shutdown
  else
    some (s, none)

/-- Method `Proxy.Serve`. -/
def Proxy.Serve (pkg : Pkg PK) (m : RoutingMethods W Conn PK R) (s : Mem W Conn PK R)
    (ln : Listener) : Option (Mem W Conn PK R × Option GoError) :=
  (Proxy.installRouting pkg m s).callRouting (fun rt => m.Serve rt ln)

end Lifecycle

/-! ## `cmd/upterm/command/session.go` -/

/-- Modelled from the spec: the payload `models.APIGetSessionResponse` of the admin socket,
declared in `host/api/swagger/models`; the spec gives its wire form as
`{sessionId, host, nodeAddr, command, forceCommand, sshUser}`. -/
structure APIGetSessionResponse where
  SessionID : String
  Host : String
  NodeAddr : String
  Command : List String
  ForceCommand : List String
  SSHUser : String
  deriving DecidableEq, Repr

/-- An entry of `ioutil.ReadDir`: the two methods of `os.FileInfo` that `listSessions` calls. -/
structure FileInfo where
  Name : String
  IsDir : Bool
  deriving DecidableEq, Repr

/-- What `session.go` reaches outside its package: the file system, the environment, the admin
socket client and the helpers of `utils`, `host`, `api`, `upterm` and `net`. -/
structure Sys where
  UptermDir : Except GoError String
  ReadDir : String → Except GoError (List FileInfo)
  AdminSocketFile : String → String → String
  AdminGetSession : String → Except GoError APIGetSessionResponse
  EncodeIdentifierSession : APIGetSessionResponse → Except GoError String
  SplitHostPort : String → Except GoError (String × String)
  HostAdminSocketEnvVar : String
  Getenv : String → String

/-- Alignment constants of `tablewriter`. -/
inductive Align where
  | ALIGN_CENTER
  | ALIGN_LEFT
  deriving DecidableEq, Repr

/-- What a command writes: a `fmt.Println` line, or a method called on the `tablewriter` table
that writes to `os.Stdout`. -/
inductive Out where
  | Println (s : String)
  | SetHeader (keys : List String)
  | SetHeaderLine (b : Bool)
  | SetColWidth (w : Nat)
  | SetBorder (b : Bool)
  | SetAlignment (a : Align)
  | SetRowSeparator (s : String)
  | SetCenterSeparator (s : String)
  | SetColumnSeparator (s : String)
  | SetNoWhiteSpace (b : Bool)
  | AppendBulk (rows : List (List String))
  | Render
  deriving DecidableEq, Repr

/-- Result of a command function: its `error` and what it wrote. -/
abbrev CmdResult := Option GoError × List Out

/-- Function `strings.Join(elems, sep)`. -/
def stringsJoin (elems : List String) (sep : String) : String :=
  sep.intercalate elems

/-- Function `naIfEmpty`. -/
def naIfEmpty (s : String) : String :=
  if s = "" then "n/a" else s

/-- Function `currentAdminSocketFile`. -/
def currentAdminSocketFile (sys : Sys) : String :=
  sys.Getenv sys.HostAdminSocketEnvVar

/-- Function `session`: ask the admin socket for the session. -/
def session (sys : Sys) (adminSocket : String) : Except GoError APIGetSessionResponse :=
  match sys.AdminGetSession adminSocket with
  | .error err => .error err
  | .ok payload => .ok payload

/-- The `for` loop of `listSessions`, lines 136-161, run over the remaining entries with the
rows collected so far. -/
def listSessionsLoop (sys : Sys) (dir currentAdminSocket : String) :
    List FileInfo → List (List String) → List (List String)
  | [], result => result
  | file :: files, result =>
    if !file.IsDir then
      listSessionsLoop sys dir currentAdminSocket files result
    else
      let adminSocket := sys.AdminSocketFile dir file.Name
      match session sys adminSocket with
      | .error _ => listSessionsLoop sys dir currentAdminSocket files result
      | .ok sess =>
        let current := if adminSocket = currentAdminSocket then "*" else ""
        listSessionsLoop sys dir currentAdminSocket files
          (result ++
            [[current, sess.SessionID, stringsJoin sess.Command " ",
              naIfEmpty (stringsJoin sess.ForceCommand " "), sess.Host]])

/-- Function `listSessions`. -/
def listSessions (sys : Sys) (dir : String) : Except GoError (List (List String)) :=
  match sys.ReadDir dir with
  | .error err => .error err
  | .ok files => .ok (listSessionsLoop sys dir (currentAdminSocketFile sys) files [])

/-- Function `listRunE`. -/
def listRunE (sys : Sys) (_args : List String) : CmdResult :=
  match sys.UptermDir with
  | .error err => (some err, [])
  | .ok uptermDir =>
    match listSessions sys uptermDir with
    | .error err => (some err, [])
    | .ok sessions =>
      if sessions.length = 0 then
        (none, [Out.Println "No session is found. Create one with \x60upterm host\x60."])
      else
        (none,
          [Out.SetHeader ["Current", "Session", "Command", "Force Command", "Host"],
            Out.SetBorder false, Out.SetAlignment Align.ALIGN_CENTER,
            Out.SetCenterSeparator "|", Out.AppendBulk sessions, Out.Render])

/-- Function `displaySession`. -/
def displaySession (sys : Sys) (path : String) : CmdResult :=
  match session sys path with
  | .error err => (some err, [])
  | .ok sess =>
    match sys.EncodeIdentifierSession sess with
    | .error err => (some err, [])
    | .ok user =>
      match sys.SplitHostPort sess.Host with
      | .error err => (some err, [])
      | .ok (host, port) =>
        let sshCmd := "ssh " ++ user ++ "@" ++ host
        let sshCmd := if port ≠ "22" then sshCmd ++ " -p " ++ port else sshCmd
        let data : List (List String) :=
          [["Command:", stringsJoin sess.Command " "],
            ["Force Command:", naIfEmpty (stringsJoin sess.ForceCommand " ")],
            ["Host:", sess.Host],
            ["SSH Session:", sshCmd]]
        (none,
          [Out.SetHeader ["=== " ++ sess.SessionID], Out.SetHeaderLine false,
            Out.SetColWidth sshCmd.utf8ByteSize, Out.SetBorder false,
            Out.SetAlignment Align.ALIGN_LEFT, Out.SetRowSeparator "",
            Out.SetCenterSeparator "", Out.SetColumnSeparator "", Out.SetNoWhiteSpace true,
            Out.AppendBulk data, Out.Render])

/-- Function `infoRunE`. -/
def infoRunE (sys : Sys) (args : List String) : CmdResult :=
  match args with
  | [] => (some (errorfPlain "missing session name"), [])
  | name :: _ =>
    match sys.UptermDir with
    | .error err => (some err, [])
    | .ok uptermDir => displaySession sys (sys.AdminSocketFile uptermDir name)

/-- Function `currentRunE`; `flagAdminSocket` is the package variable the flag is parsed into. -/
def currentRunE (sys : Sys) (flagAdminSocket : String) (_args : List String) : CmdResult :=
  displaySession sys flagAdminSocket

/-- Function `validateCurrentRequiredFlags`. -/
def validateCurrentRequiredFlags (flagAdminSocket : String) (_args : List String) :
    Option GoError :=
  let missingFlagNames : List String := []
  let missingFlagNames :=
    if flagAdminSocket = "" then missingFlagNames ++ ["admin-socket"] else missingFlagNames
  if missingFlagNames.length > 0 then
    some (errorfPlain ("required flag(s) \"" ++ stringsJoin missingFlagNames ", " ++ "\" not set"))
  else
    none

/-- The command built by `current()`: cobra runs `PreRunE` and, when it returns nil, `RunE`. -/
def currentCmd (sys : Sys) (flagAdminSocket : String) (args : List String) : CmdResult :=
  match validateCurrentRequiredFlags flagAdminSocket args with
  | some err => (some err, [])
  | none => currentRunE sys flagAdminSocket args

/-- The rows a command handed to `AppendBulk`. -/
def bulkRows : List Out → List (List String)
  | [] => []
  | Out.AppendBulk rows :: rest => rows ++ bulkRows rest
  | _ :: rest => bulkRows rest

/-- The value shown next to `label` in the two-column table of `displaySession`. -/
def shownValue (label : String) (out : List Out) : Option String :=
  match (bulkRows out).find? (fun row => row.head? = some label) with
  | some [_, v] => some v
  | _ => none

/-! ## Concrete collaborators used to run the definitions -/

/-- A decoder that knows the host user `host:s1` and the client users `s1` and `gone`, and an
authorized-keys marshaller for keys given by their base64 text. -/
def demoPkg : Pkg String where
  DecodeIdentifier := fun user _ =>
    if user = "host:s1" then .ok ⟨.HOST, "s1", ""⟩
    else if user = "s1" then .ok ⟨.CLIENT, "s1", ""⟩
    else if user = "gone" then .ok ⟨.CLIENT, "gone", ""⟩
    else .error (.leaf "bad identifier")
  MarshalAuthorizedKey := fun key => "ssh-ed25519 " ++ key ++ "\n"

/-- A proxy whose registry holds the session `s1`, registered under the tunnel id `tunnel-s1`
by the user `alice`.  The world counts the dials made; connections are numbered: `1` is the
local SSHD, `2` the tunnel of `s1`. -/
def demoProxy (upstreamNode : Bool) : Proxy Nat Nat where
  HostSigners := ["host-key"]
  SessionService :=
    ⟨fun id w =>
      (if id = "s1" then .ok ⟨"tunnel-s1", "", "alice"⟩ else .error (.leaf "session not found"),
        w)⟩
  SSHDDialListener := ⟨fun w => ((some 1, none), w + 1)⟩
  SessionDialListener :=
    ⟨fun id w =>
      (if id = "tunnel-s1" then (some 2, none) else (none, some (.leaf "unreachable")), w + 1)⟩
  UpstreamNode := upstreamNode
  Logger := "logger"
  MetricsProvider := "metrics"
  routing := none

/-- Connection metadata of a downstream that asserts `user`. -/
def demoConn (user : String) : ConnMetadata :=
  ⟨user, "sid", "SSH-2.0-upterm", "SSH-2.0-uptermd", "10.0.0.7:50000", "10.0.0.1:22"⟩

/-- A challenge context. -/
def demoCtx : AdditionalChallengeContext := ⟨""⟩

/-- A `Routing` whose `rest` is the state of its listener: `none` before `Serve`, `some false`
while it listens, `some true` once it is closed.  `Shutdown` is the method as the spec
describes it, closing the listener. -/
def closingRouting : RoutingMethods Nat Nat String (Option Bool) where
  zero := none
  Serve := fun rt _ => ({ rt with rest := some false }, none)
  Shutdown := Routing.Shutdown fun _ => some true

/-- The memory of a fresh proxy: no `Routing` allocated, `routing` nil. -/
def demoMem : Mem Nat Nat String (Option Bool) :=
  ⟨demoProxy false, []⟩

/-- The session `s1`: served on port 22, no force command. -/
def demoSession1 : APIGetSessionResponse :=
  ⟨"s1", "uptermd.example.com:22", "10.0.0.1:22", ["bash", "-l"], [], "alice"⟩

/-- The session `s2`: served on port 2222, with the force command `n/a`. -/
def demoSession2 : APIGetSessionResponse :=
  ⟨"s2", "uptermd.example.com:2222", "10.0.0.1:22", ["bash"], ["n/a"], "alice"⟩

/-- The session `s3`, whose host has no port. -/
def demoSession3 : APIGetSessionResponse :=
  ⟨"s3", "uptermd.example.com", "10.0.0.1:22", ["bash"], ["tmux", "attach"], "alice"⟩

/-- A machine with the base directory `/home/alice/.upterm`.  It holds the directories `s1`,
`s2`, `s3` of three live sessions, the directory `stale` whose admin socket does not answer,
and a plain file.  `UPTERM_ADMIN_SOCKET` names the socket of `s1`. -/
def demoSys : Sys where
  UptermDir := .ok "/home/alice/.upterm"
  ReadDir := fun dir =>
    if dir = "/home/alice/.upterm" then
      .ok [⟨"notes.txt", false⟩, ⟨"s1", true⟩, ⟨"stale", true⟩, ⟨"s2", true⟩, ⟨"s3", true⟩]
    else .error (.leaf "no such file or directory")
  AdminSocketFile := fun dir name => dir ++ "/" ++ name ++ ".sock"
  AdminGetSession := fun path =>
    if path = "/home/alice/.upterm/s1.sock" then .ok demoSession1
    else if path = "/home/alice/.upterm/s2.sock" then .ok demoSession2
    else if path = "/home/alice/.upterm/s3.sock" then .ok demoSession3
    else .error (.leaf "connection refused")
  EncodeIdentifierSession := fun sess => .ok (sess.SessionID ++ ":" ++ sess.NodeAddr)
  SplitHostPort := fun hostport =>
    if hostport = "uptermd.example.com:22" then .ok ("uptermd.example.com", "22")
    else if hostport = "uptermd.example.com:2222" then .ok ("uptermd.example.com", "2222")
    else .error (.leaf "missing port in address")
  HostAdminSocketEnvVar := "UPTERM_ADMIN_SOCKET"
  Getenv := fun key => if key = "UPTERM_ADMIN_SOCKET" then "/home/alice/.upterm/s1.sock" else ""

/-! ## Lemmas on `findUpstream` -/

section FindUpstreamLemmas

variable {W Conn PK : Type}

theorem pipeForDial_err (pkg : Pkg PK) (r : Proxy W Conn) (user : String)
    (d : Option Conn × Option GoError) (w : W) (calls : List Call) (err : GoError)
    (h : d.2 = some err) :
    r.pipeForDial pkg user d w calls = ⟨⟨none, none, some err⟩, w, calls⟩ := by
  simp [Proxy.pipeForDial, h]

theorem pipeForDial_ok (pkg : Pkg PK) (r : Proxy W Conn) (user : String)
    (d : Option Conn × Option GoError) (w : W) (calls : List Call) (h : d.2 = none) :
    r.pipeForDial pkg user d w calls = ⟨⟨d.1, some (r.authPipe pkg user), none⟩, w, calls⟩ := by
  simp [Proxy.pipeForDial, h]

theorem pipeForDial_calls (pkg : Pkg PK) (r : Proxy W Conn) (user : String)
    (d : Option Conn × Option GoError) (w : W) (calls : List Call) :
    (r.pipeForDial pkg user d w calls).calls = calls ∧
      (r.pipeForDial pkg user d w calls).world = w ∧
      (r.pipeForDial pkg user d w calls).result.err = d.2 := by
  cases h : d.2 with
  | none => simp [pipeForDial_ok pkg r user d w calls h]
  | some err => simp [pipeForDial_err pkg r user d w calls err h]

theorem pipeForDial_pipe (pkg : Pkg PK) (r : Proxy W Conn) (user : String)
    (d : Option Conn × Option GoError) (w : W) (calls : List Call) (pipe : AuthPipe PK)
    (h : (r.pipeForDial pkg user d w calls).result.pipe = some pipe) :
    pipe = r.authPipe pkg user := by
  cases hd : d.2 with
  | none =>
    rw [pipeForDial_ok pkg r user d w calls hd] at h
    exact (Option.some.inj h).symm
  | some err =>
    rw [pipeForDial_err pkg r user d w calls err hd] at h
    simp at h

theorem findUpstream_decode_error (pkg : Pkg PK) (r : Proxy W Conn) (conn : ConnMetadata)
    (ctx : AdditionalChallengeContext) (w : W) (err : GoError)
    (h : pkg.DecodeIdentifier conn.User conn.ClientVersion = .error err) :
    r.findUpstream pkg conn ctx w =
      ⟨⟨none, none, some (errorfDecoding conn.User err)⟩, w,
        [Call.DecodeIdentifier conn.User conn.ClientVersion]⟩ := by
  simp [Proxy.findUpstream, h]

theorem findUpstream_host (pkg : Pkg PK) (r : Proxy W Conn) (conn : ConnMetadata)
    (ctx : AdditionalChallengeContext) (w : W) (id : Identifier)
    (h : pkg.DecodeIdentifier conn.User conn.ClientVersion = .ok id)
    (ht : id.Type_ = Identifier_Type.HOST) :
    r.findUpstream pkg conn ctx w =
      r.pipeForDial pkg conn.User (r.SSHDDialListener.Dial w).1 (r.SSHDDialListener.Dial w).2
        [Call.DecodeIdentifier conn.User conn.ClientVersion,
          Call.LogInfo "user" id.Id "dialing sshd", Call.SSHDDial] := by
  simp [Proxy.findUpstream, h, ht]

theorem findUpstream_lookup_error (pkg : Pkg PK) (r : Proxy W Conn) (conn : ConnMetadata)
    (ctx : AdditionalChallengeContext) (w : W) (id : Identifier) (ee : GoError) (w1 : W)
    (h : pkg.DecodeIdentifier conn.User conn.ClientVersion = .ok id)
    (ht : id.Type_ ≠ Identifier_Type.HOST)
    (hs : r.SessionService.GetSession id.Id w = (.error ee, w1)) :
    r.findUpstream pkg conn ctx w =
      ⟨⟨none, none, some ee⟩, w1,
        [Call.DecodeIdentifier conn.User conn.ClientVersion, Call.GetSession id.Id,
          Call.LogDebug ee "session" id.Id "error getting session"]⟩ := by
  simp [Proxy.findUpstream, h, ht, hs]

theorem findUpstream_client (pkg : Pkg PK) (r : Proxy W Conn) (conn : ConnMetadata)
    (ctx : AdditionalChallengeContext) (w : W) (id : Identifier) (sess : Session) (w1 : W)
    (h : pkg.DecodeIdentifier conn.User conn.ClientVersion = .ok id)
    (ht : id.Type_ ≠ Identifier_Type.HOST)
    (hs : r.SessionService.GetSession id.Id w = (.ok sess, w1)) :
    r.findUpstream pkg conn ctx w =
      r.pipeForDial pkg conn.User (r.SessionDialListener.Dial sess.ID w1).1
        (r.SessionDialListener.Dial sess.ID w1).2
        [Call.DecodeIdentifier conn.User conn.ClientVersion, Call.GetSession id.Id,
          Call.LogInfo "session" sess.ID "dialing session", Call.SessionDial sess.ID] := by
  simp [Proxy.findUpstream, h, ht, hs]

theorem findUpstream_pipe (pkg : Pkg PK) (r : Proxy W Conn) (conn : ConnMetadata)
    (ctx : AdditionalChallengeContext) (w : W) (pipe : AuthPipe PK)
    (h : (r.findUpstream pkg conn ctx w).result.pipe = some pipe) :
    pipe = r.authPipe pkg conn.User := by
  cases hd : pkg.DecodeIdentifier conn.User conn.ClientVersion with
  | error err =>
    rw [findUpstream_decode_error pkg r conn ctx w err hd] at h
    simp at h
  | ok id =>
    by_cases ht : id.Type_ = Identifier_Type.HOST
    · rw [findUpstream_host pkg r conn ctx w id hd ht] at h
      exact pipeForDial_pipe pkg r _ _ _ _ pipe h
    · rcases hs : r.SessionService.GetSession id.Id w with ⟨res, w1⟩
      cases res with
      | error ee =>
        rw [findUpstream_lookup_error pkg r conn ctx w id ee w1 hd ht hs] at h
        simp at h
      | ok sess =>
        rw [findUpstream_client pkg r conn ctx w id sess w1 hd ht hs] at h
        exact pipeForDial_pipe pkg r _ _ _ _ pipe h

end FindUpstreamLemmas

/-! ## Routing by identifier type -/

section Routing

variable {W Conn PK : Type}

/-- C1: `findUpstream` routes by the decoded identifier type.  For a connection that decodes
to a HOST identifier the calls are exactly: decode, log, `SSHDDialListener.Dial()`; no
`GetSession` and no `SessionDialListener.Dial` is among them.  For a connection that decodes
to a CLIENT identifier `findUpstream` calls `GetSession(id.Id)`, never `SSHDDialListener.Dial`,
and when the lookup returns a session it calls `SessionDialListener.Dial` with the `ID` of
that session.  When `findUpstream` returns no error the connection it returns is the one the
chosen dial returned. -/
theorem findUpstream_routes_by_identifier_type (pkg : Pkg PK) (r : Proxy W Conn)
    (conn : ConnMetadata) (ctx : AdditionalChallengeContext) (w : W) (id : Identifier)
    (h : pkg.DecodeIdentifier conn.User conn.ClientVersion = .ok id) :
    (id.Type_ = Identifier_Type.HOST →
      (r.findUpstream pkg conn ctx w).calls =
          [Call.DecodeIdentifier conn.User conn.ClientVersion,
            Call.LogInfo "user" id.Id "dialing sshd", Call.SSHDDial] ∧
        (∀ c ∈ (r.findUpstream pkg conn ctx w).calls,
          c.isGetSession = false ∧ c.isSessionDial = false) ∧
        (r.findUpstream pkg conn ctx w).world = (r.SSHDDialListener.Dial w).2 ∧
        ((r.findUpstream pkg conn ctx w).result.err = none →
          (r.findUpstream pkg conn ctx w).result.conn = (r.SSHDDialListener.Dial w).1.1)) ∧
    (id.Type_ = Identifier_Type.CLIENT →
      (∀ c ∈ (r.findUpstream pkg conn ctx w).calls, c.isSSHDDial = false) ∧
        (r.findUpstream pkg conn ctx w).calls.filter Call.isGetSession =
          [Call.GetSession id.Id] ∧
        ∀ (sess : Session) (w1 : W), r.SessionService.GetSession id.Id w = (.ok sess, w1) →
          (r.findUpstream pkg conn ctx w).calls =
              [Call.DecodeIdentifier conn.User conn.ClientVersion, Call.GetSession id.Id,
                Call.LogInfo "session" sess.ID "dialing session", Call.SessionDial sess.ID] ∧
            (r.findUpstream pkg conn ctx w).world = (r.SessionDialListener.Dial sess.ID w1).2 ∧
            ((r.findUpstream pkg conn ctx w).result.err = none →
              (r.findUpstream pkg conn ctx w).result.conn =
                (r.SessionDialListener.Dial sess.ID w1).1.1)) := by
  constructor
  · intro ht
    rw [findUpstream_host pkg r conn ctx w id h ht]
    obtain ⟨hc, hw, he⟩ := pipeForDial_calls pkg r conn.User (r.SSHDDialListener.Dial w).1
      (r.SSHDDialListener.Dial w).2
      [Call.DecodeIdentifier conn.User conn.ClientVersion,
        Call.LogInfo "user" id.Id "dialing sshd", Call.SSHDDial]
    refine ⟨hc, ?_, hw, ?_⟩
    · rw [hc]
      intro c hmem
      simp only [List.mem_cons, List.mem_singleton, List.not_mem_nil, or_false] at hmem
      rcases hmem with hmem | hmem | hmem <;> subst hmem <;>
        simp [Call.isGetSession, Call.isSessionDial]
    · intro herr
      rw [he] at herr
      rw [pipeForDial_ok pkg r conn.User _ _ _ herr]
  · intro ht
    have hne : id.Type_ ≠ Identifier_Type.HOST := by rw [ht]; decide
    rcases hs : r.SessionService.GetSession id.Id w with ⟨res, w1⟩
    cases res with
    | error ee =>
      rw [findUpstream_lookup_error pkg r conn ctx w id ee w1 h hne hs]
      refine ⟨?_, ?_, ?_⟩
      · intro c hmem
        simp only [List.mem_cons, List.mem_singleton, List.not_mem_nil, or_false] at hmem
        rcases hmem with hmem | hmem | hmem <;> subst hmem <;> simp [Call.isSSHDDial]
      · simp [List.filter, Call.isGetSession]
      · intro sess w2 hcontra
        simp at hcontra
    | ok sess =>
      rw [findUpstream_client pkg r conn ctx w id sess w1 h hne hs]
      obtain ⟨hc, hw, he⟩ := pipeForDial_calls pkg r conn.User
        (r.SessionDialListener.Dial sess.ID w1).1 (r.SessionDialListener.Dial sess.ID w1).2
        [Call.DecodeIdentifier conn.User conn.ClientVersion, Call.GetSession id.Id,
          Call.LogInfo "session" sess.ID "dialing session", Call.SessionDial sess.ID]
      refine ⟨?_, ?_, ?_⟩
      · rw [hc]
        intro c hmem
        simp only [List.mem_cons, List.mem_singleton, List.not_mem_nil, or_false] at hmem
        rcases hmem with hmem | hmem | hmem | hmem <;> subst hmem <;> simp [Call.isSSHDDial]
      · rw [hc]
        simp [List.filter, Call.isGetSession]
      · intro sess2 w2 heq
        simp only [Prod.mk.injEq, Except.ok.injEq] at heq
        obtain ⟨hsess, hw2⟩ := heq
        subst hsess
        subst hw2
        refine ⟨hc, hw, ?_⟩
        intro herr
        rw [he] at herr
        rw [pipeForDial_ok pkg r conn.User _ _ _ herr]

/-- C1, run on the host connection `host:s1` and the client connection `s1`: the first dials
the SSHD and gets connection 1, the second looks `s1` up and dials the tunnel `tunnel-s1` of
the session found, getting connection 2. -/
theorem findUpstream_routes_by_identifier_type_witness :
    (((demoProxy false).findUpstream demoPkg (demoConn "host:s1") demoCtx 0).calls =
        [Call.DecodeIdentifier "host:s1" "SSH-2.0-upterm",
          Call.LogInfo "user" "s1" "dialing sshd", Call.SSHDDial] ∧
      ((demoProxy false).findUpstream demoPkg (demoConn "host:s1") demoCtx 0).result.conn
        = some 1) ∧
    (((demoProxy false).findUpstream demoPkg (demoConn "s1") demoCtx 0).calls =
        [Call.DecodeIdentifier "s1" "SSH-2.0-upterm", Call.GetSession "s1",
          Call.LogInfo "session" "tunnel-s1" "dialing session",
          Call.SessionDial "tunnel-s1"] ∧
      ((demoProxy false).findUpstream demoPkg (demoConn "s1") demoCtx 0).result.conn
        = some 2) := by
  have hh := (findUpstream_routes_by_identifier_type demoPkg (demoProxy false)
    (demoConn "host:s1") demoCtx 0 ⟨.HOST, "s1", ""⟩ rfl).1 rfl
  have hc := ((findUpstream_routes_by_identifier_type demoPkg (demoProxy false)
    (demoConn "s1") demoCtx 0 ⟨.CLIENT, "s1", ""⟩ rfl).2 rfl).2.2
      ⟨"tunnel-s1", "", "alice"⟩ 0 rfl
  exact ⟨⟨hh.1, hh.2.2.2 rfl⟩, ⟨hc.1, hc.2.2 rfl⟩⟩

end Routing

/-! ## One upstream per downstream, and the failure cases -/

section Failures

variable {W Conn PK : Type}

theorem findUpstream_cases (pkg : Pkg PK) (r : Proxy W Conn) (conn : ConnMetadata)
    (ctx : AdditionalChallengeContext) (w : W) :
    (∃ err, pkg.DecodeIdentifier conn.User conn.ClientVersion = .error err ∧
      (r.findUpstream pkg conn ctx w) = ⟨⟨none, none, some (errorfDecoding conn.User err)⟩, w,
        [Call.DecodeIdentifier conn.User conn.ClientVersion]⟩) ∨
    (∃ id ee w1, pkg.DecodeIdentifier conn.User conn.ClientVersion = .ok id ∧ id.Type_ ≠ Identifier_Type.HOST ∧
      r.SessionService.GetSession id.Id w = (.error ee, w1) ∧
      (r.findUpstream pkg conn ctx w) = ⟨⟨none, none, some ee⟩, w1,
        [Call.DecodeIdentifier conn.User conn.ClientVersion, Call.GetSession id.Id,
          Call.LogDebug ee "session" id.Id "error getting session"]⟩) ∨
    (∃ id, pkg.DecodeIdentifier conn.User conn.ClientVersion = .ok id ∧ id.Type_ = Identifier_Type.HOST ∧
      (r.findUpstream pkg conn ctx w).calls = [Call.DecodeIdentifier conn.User conn.ClientVersion,
          Call.LogInfo "user" id.Id "dialing sshd", Call.SSHDDial] ∧
      (r.findUpstream pkg conn ctx w).result.err = (r.SSHDDialListener.Dial w).1.2 ∧
      ((r.findUpstream pkg conn ctx w).result.err ≠ none →
        (r.findUpstream pkg conn ctx w).result.conn = none ∧ (r.findUpstream pkg conn ctx w).result.pipe = none) ∧
      ((r.findUpstream pkg conn ctx w).result.err = none →
        (r.findUpstream pkg conn ctx w).result.pipe = some (r.authPipe pkg conn.User))) ∨
    (∃ id sess w1, pkg.DecodeIdentifier conn.User conn.ClientVersion = .ok id ∧ id.Type_ ≠ Identifier_Type.HOST ∧
      r.SessionService.GetSession id.Id w = (.ok sess, w1) ∧
      (r.findUpstream pkg conn ctx w).calls = [Call.DecodeIdentifier conn.User conn.ClientVersion, Call.GetSession id.Id,
          Call.LogInfo "session" sess.ID "dialing session", Call.SessionDial sess.ID] ∧
      (r.findUpstream pkg conn ctx w).result.err = (r.SessionDialListener.Dial sess.ID w1).1.2 ∧
      ((r.findUpstream pkg conn ctx w).result.err ≠ none →
        (r.findUpstream pkg conn ctx w).result.conn = none ∧ (r.findUpstream pkg conn ctx w).result.pipe = none) ∧
      ((r.findUpstream pkg conn ctx w).result.err = none →
        (r.findUpstream pkg conn ctx w).result.pipe = some (r.authPipe pkg conn.User))) := by
  have key : ∀ (d : Option Conn × Option GoError) (w2 : W) (calls : List Call),
      (r.pipeForDial pkg conn.User d w2 calls).calls = calls ∧
      (r.pipeForDial pkg conn.User d w2 calls).result.err = d.2 ∧
      ((r.pipeForDial pkg conn.User d w2 calls).result.err ≠ none →
        (r.pipeForDial pkg conn.User d w2 calls).result.conn = none ∧
        (r.pipeForDial pkg conn.User d w2 calls).result.pipe = none) ∧
      ((r.pipeForDial pkg conn.User d w2 calls).result.err = none →
        (r.pipeForDial pkg conn.User d w2 calls).result.pipe =
          some (r.authPipe pkg conn.User)) := by
    intro d w2 calls
    cases hd : d.2 with
    | none => simp [pipeForDial_ok pkg r conn.User d w2 calls hd]
    | some err => simp [pipeForDial_err pkg r conn.User d w2 calls err hd]
  cases hd : pkg.DecodeIdentifier conn.User conn.ClientVersion with
  | error err =>
    exact Or.inl ⟨err, rfl, findUpstream_decode_error pkg r conn ctx w err hd⟩
  | ok id =>
    by_cases ht : id.Type_ = Identifier_Type.HOST
    · refine Or.inr (Or.inr (Or.inl ⟨id, rfl, ht, ?_⟩))
      rw [findUpstream_host pkg r conn ctx w id hd ht]
      exact key _ _ _
    · rcases hs : r.SessionService.GetSession id.Id w with ⟨res, w1⟩
      cases res with
      | error ee =>
        exact Or.inr (Or.inl ⟨id, ee, w1, rfl, ht, hs,
          findUpstream_lookup_error pkg r conn ctx w id ee w1 hd ht hs⟩)
      | ok sess =>
        refine Or.inr (Or.inr (Or.inr ⟨id, sess, w1, rfl, ht, hs, ?_⟩))
        rw [findUpstream_client pkg r conn ctx w id sess w1 hd ht hs]
        exact key _ _ _

theorem findUpstream_pipe_no_err (pkg : Pkg PK) (r : Proxy W Conn) (conn : ConnMetadata)
    (ctx : AdditionalChallengeContext) (w : W) (pipe : AuthPipe PK)
    (h : (r.findUpstream pkg conn ctx w).result.pipe = some pipe) :
    (r.findUpstream pkg conn ctx w).result.err = none := by
  by_contra hne
  rcases findUpstream_cases pkg r conn ctx w with ⟨err, _, hr⟩ | ⟨id, ee, w1, _, _, _, hr⟩ |
    ⟨id, _, _, _, _, hf, _⟩ | ⟨id, sess, w1, _, _, _, _, _, hf, _⟩
  · rw [hr] at h; cases h
  · rw [hr] at h; cases h
  · rw [(hf hne).2] at h; cases h
  · rw [(hf hne).2] at h; cases h

/-- C2: one upstream per downstream.  Every run of `findUpstream` issues at most one upstream
dial (`SSHDDialListener.Dial` and `SessionDialListener.Dial` together).  The first call is
always the decode of the identifier; when the decode fails it is the only call, so there is
no dial and no registry lookup; when the session lookup for a non-host identifier fails
there is no dial. -/
theorem findUpstream_at_most_one_dial (pkg : Pkg PK) (r : Proxy W Conn) (conn : ConnMetadata)
    (ctx : AdditionalChallengeContext) (w : W) :
    dialCount (r.findUpstream pkg conn ctx w).calls ≤ 1 ∧
    (r.findUpstream pkg conn ctx w).calls.head? = some (Call.DecodeIdentifier conn.User conn.ClientVersion) ∧
    (∀ err, pkg.DecodeIdentifier conn.User conn.ClientVersion = .error err →
      (r.findUpstream pkg conn ctx w).calls = [Call.DecodeIdentifier conn.User conn.ClientVersion] ∧
      dialCount (r.findUpstream pkg conn ctx w).calls = 0) ∧
    (∀ id ee w1, pkg.DecodeIdentifier conn.User conn.ClientVersion = .ok id → id.Type_ ≠ Identifier_Type.HOST →
      r.SessionService.GetSession id.Id w = (.error ee, w1) →
      dialCount (r.findUpstream pkg conn ctx w).calls = 0) := by
  refine ⟨?_, ?_, ?_, ?_⟩
  · rcases findUpstream_cases pkg r conn ctx w with ⟨err, _, hr⟩ | ⟨id, ee, w1, _, _, _, hr⟩ |
      ⟨id, _, _, hc, _⟩ | ⟨id, sess, w1, _, _, _, hc, _⟩
    · rw [hr]; simp [dialCount, List.filter, Call.isDial]
    · rw [hr]; simp [dialCount, List.filter, Call.isDial]
    · rw [hc]; simp [dialCount, List.filter, Call.isDial]
    · rw [hc]; simp [dialCount, List.filter, Call.isDial]
  · rcases findUpstream_cases pkg r conn ctx w with ⟨err, _, hr⟩ | ⟨id, ee, w1, _, _, _, hr⟩ |
      ⟨id, _, _, hc, _⟩ | ⟨id, sess, w1, _, _, _, hc, _⟩
    · rw [hr]; rfl
    · rw [hr]; rfl
    · rw [hc]; rfl
    · rw [hc]; rfl
  · intro err hd
    rw [findUpstream_decode_error pkg r conn ctx w err hd]
    simp [dialCount, List.filter, Call.isDial]
  · intro id ee w1 hd ht hs
    rw [findUpstream_lookup_error pkg r conn ctx w id ee w1 hd ht hs]
    simp [dialCount, List.filter, Call.isDial]

/-- C2, run on the client connection `gone`, whose session is not registered: the lookup is
made and fails, and no dial follows. -/
theorem findUpstream_at_most_one_dial_witness :
    dialCount ((demoProxy false).findUpstream demoPkg (demoConn "gone") demoCtx 0).calls = 0 :=
  (findUpstream_at_most_one_dial demoPkg (demoProxy false) (demoConn "gone") demoCtx 0).2.2.2
    ⟨.CLIENT, "gone", ""⟩ (.leaf "session not found") 0 rfl (by decide) rfl

/-- C3: `findUpstream` returns an error exactly when the decode of the identifier fails, or
the identifier is not HOST and `GetSession` fails, or the dial that was chosen fails.  With an
error it returns neither a connection nor an `AuthPipe`; without one it returns an `AuthPipe`.
A decode error comes back wrapped: unwrapping gives the decoder's error, and the message is
`error decoding identifier from user <user>: <decoder's message>`.  Lookup and dial errors
come back as they are. -/
theorem findUpstream_fails_exactly_when (pkg : Pkg PK) (r : Proxy W Conn)
    (conn : ConnMetadata) (ctx : AdditionalChallengeContext) (w : W) :
    ((r.findUpstream pkg conn ctx w).result.err ≠ none ↔
      (∃ err, pkg.DecodeIdentifier conn.User conn.ClientVersion = .error err) ∨
      (∃ id ee w1, pkg.DecodeIdentifier conn.User conn.ClientVersion = .ok id ∧ id.Type_ ≠ Identifier_Type.HOST ∧
        r.SessionService.GetSession id.Id w = (.error ee, w1)) ∨
      (∃ id, pkg.DecodeIdentifier conn.User conn.ClientVersion = .ok id ∧ id.Type_ = Identifier_Type.HOST ∧
        (r.SSHDDialListener.Dial w).1.2 ≠ none) ∨
      (∃ id sess w1, pkg.DecodeIdentifier conn.User conn.ClientVersion = .ok id ∧ id.Type_ ≠ Identifier_Type.HOST ∧
        r.SessionService.GetSession id.Id w = (.ok sess, w1) ∧
        (r.SessionDialListener.Dial sess.ID w1).1.2 ≠ none)) ∧
    ((r.findUpstream pkg conn ctx w).result.err ≠ none →
      (r.findUpstream pkg conn ctx w).result.conn = none ∧ (r.findUpstream pkg conn ctx w).result.pipe = none) ∧
    ((r.findUpstream pkg conn ctx w).result.err = none → (r.findUpstream pkg conn ctx w).result.pipe.isSome = true) ∧
    (∀ err, pkg.DecodeIdentifier conn.User conn.ClientVersion = .error err →
      (r.findUpstream pkg conn ctx w).result.err = some (errorfDecoding conn.User err) ∧
      (errorfDecoding conn.User err).Unwrap = some err ∧
      (errorfDecoding conn.User err).Error =
        "error decoding identifier from user " ++ conn.User ++ ": " ++ err.Error) ∧
    (∀ id ee w1, pkg.DecodeIdentifier conn.User conn.ClientVersion = .ok id → id.Type_ ≠ Identifier_Type.HOST →
      r.SessionService.GetSession id.Id w = (.error ee, w1) →
      (r.findUpstream pkg conn ctx w).result.err = some ee) ∧
    (∀ id, pkg.DecodeIdentifier conn.User conn.ClientVersion = .ok id → id.Type_ = Identifier_Type.HOST →
      (r.findUpstream pkg conn ctx w).result.err = (r.SSHDDialListener.Dial w).1.2) ∧
    (∀ id sess w1, pkg.DecodeIdentifier conn.User conn.ClientVersion = .ok id → id.Type_ ≠ Identifier_Type.HOST →
      r.SessionService.GetSession id.Id w = (.ok sess, w1) →
      (r.findUpstream pkg conn ctx w).result.err = (r.SessionDialListener.Dial sess.ID w1).1.2) := by
  refine ⟨?_, ?_, ?_, ?_, ?_, ?_, ?_⟩
  · rcases findUpstream_cases pkg r conn ctx w with ⟨err, hd, hr⟩ |
      ⟨id, ee, w1, hd, ht, hs, hr⟩ | ⟨id, hd, ht, _, he, _⟩ |
      ⟨id, sess, w1, hd, ht, hs, _, he, _⟩
    · rw [hr]; simp [hd]
    · rw [hr]
      simp only [ne_eq, reduceCtorEq, not_false_eq_true, true_iff]
      exact Or.inr (Or.inl ⟨id, ee, w1, hd, ht, hs⟩)
    · rw [he]
      constructor
      · intro hne
        exact Or.inr (Or.inr (Or.inl ⟨id, hd, ht, hne⟩))
      · rintro (⟨err, hd2⟩ | ⟨id2, ee, w1, hd2, ht2, _⟩ | ⟨id2, _, _, hne⟩ |
          ⟨id2, sess, w1, hd2, ht2, _⟩)
        · rw [hd] at hd2; cases hd2
        · rw [hd] at hd2; cases hd2; exact absurd ht ht2
        · exact hne
        · rw [hd] at hd2; cases hd2; exact absurd ht ht2
    · rw [he]
      constructor
      · intro hne
        exact Or.inr (Or.inr (Or.inr ⟨id, sess, w1, hd, ht, hs, hne⟩))
      · rintro (⟨err, hd2⟩ | ⟨id2, ee, w2, hd2, _, hs2⟩ | ⟨id2, hd2, ht2, _⟩ |
          ⟨id2, sess2, w2, hd2, _, hs2, hne⟩)
        · rw [hd] at hd2; cases hd2
        · rw [hd] at hd2; cases hd2; rw [hs] at hs2; cases hs2
        · rw [hd] at hd2; cases hd2; exact absurd ht2 ht
        · rw [hd] at hd2; cases hd2; rw [hs] at hs2; cases hs2; exact hne
  · rcases findUpstream_cases pkg r conn ctx w with ⟨err, _, hr⟩ | ⟨id, ee, w1, _, _, _, hr⟩ |
      ⟨id, _, _, _, _, hf, _⟩ | ⟨id, sess, w1, _, _, _, _, _, hf, _⟩
    · rw [hr]; simp
    · rw [hr]; simp
    · exact hf
    · exact hf
  · rcases findUpstream_cases pkg r conn ctx w with ⟨err, _, hr⟩ | ⟨id, ee, w1, _, _, _, hr⟩ |
      ⟨id, _, _, _, _, _, hg⟩ | ⟨id, sess, w1, _, _, _, _, _, _, hg⟩
    · rw [hr]; simp
    · rw [hr]; simp
    · intro h0; rw [hg h0]; rfl
    · intro h0; rw [hg h0]; rfl
  · intro err hd
    rw [findUpstream_decode_error pkg r conn ctx w err hd]
    exact ⟨rfl, rfl, rfl⟩
  · intro id ee w1 hd ht hs
    rw [findUpstream_lookup_error pkg r conn ctx w id ee w1 hd ht hs]
  · intro id hd ht
    rw [findUpstream_host pkg r conn ctx w id hd ht]
    exact (pipeForDial_calls pkg r _ _ _ _).2.2
  · intro id sess w1 hd ht hs
    rw [findUpstream_client pkg r conn ctx w id sess w1 hd ht hs]
    exact (pipeForDial_calls pkg r _ _ _ _).2.2

/-- C3, run on the connection `zz`, which does not decode: the error unwraps to the decoder's
error and its message names the user. -/
theorem findUpstream_fails_exactly_when_witness :
    ((demoProxy false).findUpstream demoPkg (demoConn "zz") demoCtx 0).result.err =
        some (errorfDecoding "zz" (.leaf "bad identifier")) ∧
      (errorfDecoding "zz" (.leaf "bad identifier")).Unwrap = some (.leaf "bad identifier") ∧
      (errorfDecoding "zz" (.leaf "bad identifier")).Error =
        "error decoding identifier from user " ++ "zz" ++ ": " ++ "bad identifier" :=
  (findUpstream_fails_exactly_when demoPkg (demoProxy false) (demoConn "zz") demoCtx 0).2.2.2.1
    (.leaf "bad identifier") rfl

end Failures

/-! ## The two `AuthPipe` variants -/

section AuthPipes

variable {W Conn PK : Type}

/-- C4: host variant.  With `UpstreamNode = false`, the `AuthPipe` of a successful
`findUpstream` answers none auth with the verdict None, a password with Discard and no auth
method, a public key `k` with Map and the auth method `Password(MarshalAuthorizedKey(k))`,
never with an error, and its upstream host-key callback is `ssh.InsecureIgnoreHostKey()`,
which returns nil for every host key. -/
theorem authPipe_host_variant (pkg : Pkg PK) (r : Proxy W Conn) (conn : ConnMetadata)
    (ctx : AdditionalChallengeContext) (w : W) (pipe : AuthPipe PK)
    (hnode : r.UpstreamNode = false)
    (hpipe : (r.findUpstream pkg conn ctx w).result.pipe = some pipe) :
    (r.findUpstream pkg conn ctx w).result.err = none ∧
    (∀ md, pipe.NoneAuthCallback md = ⟨.AuthPipeTypeNone, none, none⟩) ∧
    (∀ md password, pipe.PasswordCallback md password = ⟨.AuthPipeTypeDiscard, none, none⟩) ∧
    (∀ md k, pipe.PublicKeyCallback md k =
      ⟨.AuthPipeTypeMap, some (.Password (pkg.MarshalAuthorizedKey k)), none⟩) ∧
    pipe.UpstreamHostKeyCallback = InsecureIgnoreHostKey PK ∧
    (∀ hostname remote k, pipe.UpstreamHostKeyCallback hostname remote k = none) := by
  have hp := findUpstream_pipe pkg r conn ctx w pipe hpipe
  subst hp
  refine ⟨?_, ?_, ?_, ?_, ?_, ?_⟩
  · exact findUpstream_pipe_no_err pkg r conn ctx w _ hpipe
  · intro md
    simp [Proxy.authPipe, hnode, Proxy.noneCallback]
  · intro md password
    simp [Proxy.authPipe, hnode, Proxy.discardPasswordCallback]
  · intro md k
    simp [Proxy.authPipe, hnode, Proxy.convertToPasswordPublicKeyCallback]
  · simp [Proxy.authPipe, hnode]
  · intro hostname remote k
    simp [Proxy.authPipe, hnode, InsecureIgnoreHostKey]

/-- C4, run on the client connection `s1` with the key `AAAA`: the upstream leg gets the
password `ssh-ed25519 AAAA` followed by a newline. -/
theorem authPipe_host_variant_witness :
    (((demoProxy false).findUpstream demoPkg (demoConn "s1") demoCtx 0).result.pipe.map
        fun pipe => pipe.PublicKeyCallback (demoConn "s1") "AAAA") =
      some ⟨.AuthPipeTypeMap, some (.Password "ssh-ed25519 AAAA\n"), none⟩ :=
  congrArg some
    ((authPipe_host_variant demoPkg (demoProxy false) (demoConn "s1") demoCtx 0
      ((demoProxy false).authPipe demoPkg "s1") rfl rfl).2.2.2.1 (demoConn "s1") "AAAA")

/-- C5: upstream-node variant.  With `UpstreamNode = true`, the `AuthPipe` of a successful
`findUpstream` answers none auth with the verdict None, every password with PassThrough and
every public key with Discard, each time without auth method and without error, and its
upstream host-key callback is `ssh.InsecureIgnoreHostKey()`, which returns nil for every host
key. -/
theorem authPipe_upstream_node_variant (pkg : Pkg PK) (r : Proxy W Conn) (conn : ConnMetadata)
    (ctx : AdditionalChallengeContext) (w : W) (pipe : AuthPipe PK)
    (hnode : r.UpstreamNode = true)
    (hpipe : (r.findUpstream pkg conn ctx w).result.pipe = some pipe) :
    (r.findUpstream pkg conn ctx w).result.err = none ∧
    (∀ md, pipe.NoneAuthCallback md = ⟨.AuthPipeTypeNone, none, none⟩) ∧
    (∀ md password,
      pipe.PasswordCallback md password = ⟨.AuthPipeTypePassThrough, none, none⟩) ∧
    (∀ md k, pipe.PublicKeyCallback md k = ⟨.AuthPipeTypeDiscard, none, none⟩) ∧
    pipe.UpstreamHostKeyCallback = InsecureIgnoreHostKey PK ∧
    (∀ hostname remote k, pipe.UpstreamHostKeyCallback hostname remote k = none) := by
  have hp := findUpstream_pipe pkg r conn ctx w pipe hpipe
  subst hp
  refine ⟨findUpstream_pipe_no_err pkg r conn ctx w _ hpipe, ?_, ?_, ?_, ?_, ?_⟩
  · intro md
    simp [Proxy.authPipe, hnode, Proxy.noneCallback]
  · intro md password
    simp [Proxy.authPipe, hnode, Proxy.passThroughPasswordCallback]
  · intro md k
    simp [Proxy.authPipe, hnode, Proxy.discardPublicKeyCallback]
  · simp [Proxy.authPipe, hnode]
  · intro hostname remote k
    simp [Proxy.authPipe, hnode, InsecureIgnoreHostKey]

/-- C5, run on the host connection `host:s1` of an upstream-node proxy. -/
theorem authPipe_upstream_node_variant_witness :
    (((demoProxy true).findUpstream demoPkg (demoConn "host:s1") demoCtx 0).result.pipe.map
        fun pipe =>
          (pipe.PasswordCallback (demoConn "host:s1") "secret",
            pipe.PublicKeyCallback (demoConn "host:s1") "AAAA")) =
      some (⟨.AuthPipeTypePassThrough, none, none⟩, ⟨.AuthPipeTypeDiscard, none, none⟩) := by
  have h := (authPipe_upstream_node_variant demoPkg (demoProxy true) (demoConn "host:s1")
    demoCtx 0 ((demoProxy true).authPipe demoPkg "host:s1") rfl rfl).2.2
  exact congrArg some (Prod.ext (h.1 (demoConn "host:s1") "secret")
    (h.2.1 (demoConn "host:s1") "AAAA"))

/-- C6: in both variants and for both identifier types, the `User` of the `AuthPipe` a
successful `findUpstream` returns is `conn.User()`. -/
theorem authPipe_user_is_downstream_user (pkg : Pkg PK) (r : Proxy W Conn)
    (conn : ConnMetadata) (ctx : AdditionalChallengeContext) (w : W) (pipe : AuthPipe PK)
    (hpipe : (r.findUpstream pkg conn ctx w).result.pipe = some pipe) :
    pipe.User = conn.User := by
  have hp := findUpstream_pipe pkg r conn ctx w pipe hpipe
  subst hp
  cases hnode : r.UpstreamNode <;> simp [Proxy.authPipe, hnode]

/-- C6, run on the client connection `s1`: the decoded id is `s1`, the session found has the
ID `tunnel-s1` and the host user `alice`, and the `AuthPipe` carries the user `s1` the
downstream asserted; run on the host connection `host:s1`, whose decoded id is `s1`, it
carries `host:s1`. -/
theorem authPipe_user_is_downstream_user_witness :
    (((demoProxy false).findUpstream demoPkg (demoConn "s1") demoCtx 0).result.pipe.map
        AuthPipe.User = some "s1") ∧
    (((demoProxy true).findUpstream demoPkg (demoConn "host:s1") demoCtx 0).result.pipe.map
        AuthPipe.User = some "host:s1") :=
  ⟨congrArg some (authPipe_user_is_downstream_user demoPkg (demoProxy false) (demoConn "s1")
      demoCtx 0 ((demoProxy false).authPipe demoPkg "s1") rfl),
    congrArg some (authPipe_user_is_downstream_user demoPkg (demoProxy true)
      (demoConn "host:s1") demoCtx 0 ((demoProxy true).authPipe demoPkg "host:s1") rfl)⟩

end AuthPipes

/-! ## `Serve` and `Shutdown` -/

section LifecycleTheorems

variable {W Conn PK R : Type}

theorem callRouting_at (s : Mem W Conn PK R)
    (f : Routing W Conn PK R → Routing W Conn PK R × Option GoError) (a : Nat)
    (rt : Routing W Conn PK R) (h : s.proxy.routing = some a) (hrt : s.heap[a]? = some rt) :
    s.callRouting f = some ({ s with heap := s.heap.set a (f rt).1 }, (f rt).2) := by
  simp [Mem.callRouting, h, hrt]

theorem handleValid_fresh (s : Mem W Conn PK R) (h : s.proxy.routing = none) :
    s.handleValid = true := by
  simp [Mem.handleValid, h]

theorem handleValid_installRouting (pkg : Pkg PK) (m : RoutingMethods W Conn PK R)
    (s : Mem W Conn PK R) : (Proxy.installRouting pkg m s).handleValid = true := by
  simp [Mem.handleValid, Proxy.installRouting]

theorem handleValid_callRouting (s : Mem W Conn PK R)
    (f : Routing W Conn PK R → Routing W Conn PK R × Option GoError)
    (r : Mem W Conn PK R × Option GoError) (hv : s.handleValid = true)
    (h : s.callRouting f = some r) : r.1.handleValid = true := by
  unfold Mem.callRouting at h
  cases hr : s.proxy.routing with
  | none => simp [hr] at h
  | some a =>
    cases hrt : s.heap[a]? with
    | none => simp [hr, hrt] at h
    | some rt =>
      simp only [hr, hrt, Option.some.injEq] at h
      subst h
      simpa [Mem.handleValid, hr] using hv

theorem handleValid_Serve (pkg : Pkg PK) (m : RoutingMethods W Conn PK R)
    (s : Mem W Conn PK R) (ln : Listener) (r : Mem W Conn PK R × Option GoError)
    (h : Proxy.Serve pkg m s ln = some r) : r.1.handleValid = true :=
  handleValid_callRouting _ _ r (handleValid_installRouting pkg m s) h

theorem Shutdown_spec_step (m : RoutingMethods W Conn PK R) (stop : R → R)
    (s : Mem W Conn PK R) (hv : s.handleValid = true) :
    ∃ s1, Proxy.Shutdown (m.withSpecShutdown stop) s = some (s1, none) ∧
      s1.proxy = s.proxy ∧ s1.heap.length = s.heap.length ∧ s1.handleValid = true := by
  cases hr : s.proxy.routing with
  | none =>
    refine ⟨s, ?_, rfl, rfl, hv⟩
    simp [Proxy.Shutdown, hr]
  | some a =>
    have ha : a < s.heap.length := by simpa [Mem.handleValid, hr] using hv
    have hrt : s.heap[a]? = some (s.heap[a]) := List.getElem?_eq_getElem ha
    refine ⟨Mem.mk s.proxy
      (s.heap.set a ((m.withSpecShutdown stop).Shutdown (s.heap[a])).1), ?_, rfl, ?_, ?_⟩
    · simp only [Proxy.Shutdown, hr, ne_eq, reduceCtorEq, not_false_eq_true, if_true]
      rw [callRouting_at s _ a _ hr hrt]
      rfl
    · simp
    · simpa [Mem.handleValid, hr] using ha

/-- C7: shutdown idempotence.  With `Routing.Shutdown` as the spec describes it, two calls of
`Proxy.Shutdown` in a row return nil both times, from every memory whose routing handle is
nil or points to an allocated `Routing` (so before and after `Serve`), and neither call
changes a field of the proxy or allocates a `Routing`.  With a nil handle (no `Serve` yet)
`Proxy.Shutdown` returns nil and leaves the whole memory as it was, for every `Routing`. -/
theorem Shutdown_twice_ok (m : RoutingMethods W Conn PK R) (stop : R → R)
    (s : Mem W Conn PK R) (hv : s.handleValid = true) :
    (Proxy.Shutdown (m.withSpecShutdown stop) s).map Prod.snd = some none ∧
    ((Proxy.Shutdown (m.withSpecShutdown stop) s).bind fun a =>
      (Proxy.Shutdown (m.withSpecShutdown stop) a.1).map Prod.snd) = some none ∧
    (Proxy.Shutdown (m.withSpecShutdown stop) s).map (fun a => a.1.proxy) = some s.proxy ∧
    ((Proxy.Shutdown (m.withSpecShutdown stop) s).bind fun a =>
      (Proxy.Shutdown (m.withSpecShutdown stop) a.1).map fun b => b.1.proxy) =
        some s.proxy ∧
    ((Proxy.Shutdown (m.withSpecShutdown stop) s).bind fun a =>
      (Proxy.Shutdown (m.withSpecShutdown stop) a.1).map fun b => b.1.heap.length) =
        some s.heap.length ∧
    (s.proxy.routing = none →
      Proxy.Shutdown m s = some (s, none) ∧
      ((Proxy.Shutdown m s).bind fun a => Proxy.Shutdown m a.1) = some (s, none)) := by
  obtain ⟨s1, h1, hp1, hl1, hv1⟩ := Shutdown_spec_step m stop s hv
  obtain ⟨s2, h2, hp2, hl2, _⟩ := Shutdown_spec_step m stop s1 hv1
  refine ⟨?_, ?_, ?_, ?_, ?_, ?_⟩
  · rw [h1]; rfl
  · rw [h1]
    simp only [Option.some_bind]
    rw [h2]; rfl
  · rw [h1]
    simp [hp1]
  · rw [h1]
    simp only [Option.some_bind]
    rw [h2]
    simp [hp2, hp1]
  · rw [h1]
    simp only [Option.some_bind]
    rw [h2]
    simp [hl2, hl1]
  · intro h
    have h0 : Proxy.Shutdown m s = some (s, none) := by simp [Proxy.Shutdown, h]
    refine ⟨h0, ?_⟩
    rw [h0]
    exact h0

/-- C7, run twice: on the proxy whose `Serve` has installed the `Routing` at address 0, two
calls of `Shutdown` return nil and leave the handle at address 0; on the fresh proxy two calls
return nil and change nothing. -/
theorem Shutdown_twice_ok_witness :
    (Proxy.installRouting demoPkg closingRouting demoMem).proxy.routing = some 0 ∧
    ((Proxy.Shutdown (closingRouting.withSpecShutdown fun _ => some true)
        (Proxy.installRouting demoPkg closingRouting demoMem)).bind fun a =>
      (Proxy.Shutdown (closingRouting.withSpecShutdown fun _ => some true) a.1).map
        Prod.snd) = some none ∧
    ((Proxy.Shutdown closingRouting demoMem).bind fun a => Proxy.Shutdown closingRouting a.1) =
      some (demoMem, none) :=
  ⟨rfl,
    (Shutdown_twice_ok closingRouting (fun _ => some true)
      (Proxy.installRouting demoPkg closingRouting demoMem) rfl).2.1,
    ((Shutdown_twice_ok closingRouting (fun _ => some true) demoMem rfl).2.2.2.2.2 rfl).2⟩

/-- C8 as stated fails: a proxy whose first `Serve` has installed the `Routing` at address 0
is served again; the handle becomes address 1 and the call returns nil, the result of the
new `Routing`, not an error. -/
theorem Serve_while_running_replaces_routing :
    (Proxy.installRouting demoPkg closingRouting demoMem).proxy.routing = some 0 ∧
    ((Proxy.Serve demoPkg closingRouting (Proxy.installRouting demoPkg closingRouting demoMem)
        ⟨":2222"⟩).map fun b => (b.1.proxy.routing, b.2)) = some (some 1, none) := by
  constructor <;> rfl

/-- C8, amended: `Proxy.Serve` checks nothing.  Called while the routing handle points to a
`Routing` at address `a`, it allocates a new `Routing` from the proxy's `HostSigners`,
`Logger`, `findUpstream` and `MetricsProvider`, stores its address, which differs from `a`,
in the handle, runs `Serve` of the new `Routing` and returns its result; the `Routing`
objects allocated before stay as they were. -/
theorem Serve_installs_fresh_routing (pkg : Pkg PK) (m : RoutingMethods W Conn PK R)
    (s : Mem W Conn PK R) (ln : Listener) (a : Nat) (h : s.proxy.routing = some a)
    (ha : a < s.heap.length) :
    Proxy.Serve pkg m s ln =
      some ({ proxy := { s.proxy with routing := some s.heap.length }
              heap := s.heap ++ [(m.Serve (s.proxy.newRouting pkg m) ln).1] },
        (m.Serve (s.proxy.newRouting pkg m) ln).2) ∧
    some s.heap.length ≠ s.proxy.routing := by
  constructor
  · simp [Proxy.Serve, Proxy.installRouting, Mem.callRouting]
  · rw [h]
    intro hc
    cases hc
    exact absurd ha (lt_irrefl _)

/-- C8 amended, run on the proxy whose first `Serve` installed the `Routing` at address 0. -/
theorem Serve_installs_fresh_routing_witness :
    ((Proxy.Serve demoPkg closingRouting (Proxy.installRouting demoPkg closingRouting demoMem)
        ⟨":2222"⟩).map fun b => (b.1.proxy.routing, b.1.heap.length, b.2)) =
      some (some 1, 2, none) := by
  rw [(Serve_installs_fresh_routing demoPkg closingRouting
    (Proxy.installRouting demoPkg closingRouting demoMem) ⟨":2222"⟩ 0 rfl (by decide)).1]
  rfl

end LifecycleTheorems

/-! ## The `session` sub-commands -/

theorem session_eq (sys : Sys) (path : String) :
    session sys path = sys.AdminGetSession path := by
  unfold session
  cases sys.AdminGetSession path <;> rfl

theorem displaySession_ok (sys : Sys) (path : String) (sess : APIGetSessionResponse)
    (user host port : String) (hs : sys.AdminGetSession path = .ok sess)
    (hu : sys.EncodeIdentifierSession sess = .ok user)
    (hp : sys.SplitHostPort sess.Host = .ok (host, port)) :
    displaySession sys path =
      (none,
        [Out.SetHeader ["=== " ++ sess.SessionID], Out.SetHeaderLine false,
          Out.SetColWidth
            (if port ≠ "22" then "ssh " ++ user ++ "@" ++ host ++ " -p " ++ port
              else "ssh " ++ user ++ "@" ++ host).utf8ByteSize,
          Out.SetBorder false, Out.SetAlignment Align.ALIGN_LEFT, Out.SetRowSeparator "",
          Out.SetCenterSeparator "", Out.SetColumnSeparator "", Out.SetNoWhiteSpace true,
          Out.AppendBulk
            [["Command:", stringsJoin sess.Command " "],
              ["Force Command:", naIfEmpty (stringsJoin sess.ForceCommand " ")],
              ["Host:", sess.Host],
              ["SSH Session:",
                if port ≠ "22" then "ssh " ++ user ++ "@" ++ host ++ " -p " ++ port
                else "ssh " ++ user ++ "@" ++ host]],
          Out.Render]) := by
  simp only [displaySession, session_eq, hs, hu, hp]

/-- C9 as stated fails for `session list`: the base directory holds the directory `stale`,
whose admin socket cannot be read, and `session list` returns nil and lists the others. -/
theorem session_list_skips_unreadable_socket :
    FileInfo.mk "stale" true ∈ [FileInfo.mk "notes.txt" false, ⟨"s1", true⟩, ⟨"stale", true⟩,
        ⟨"s2", true⟩, ⟨"s3", true⟩] ∧
    demoSys.ReadDir "/home/alice/.upterm" =
      .ok [⟨"notes.txt", false⟩, ⟨"s1", true⟩, ⟨"stale", true⟩, ⟨"s2", true⟩, ⟨"s3", true⟩] ∧
    session demoSys (demoSys.AdminSocketFile "/home/alice/.upterm" "stale") =
      .error (.leaf "connection refused") ∧
    (listRunE demoSys []).1 = none ∧
    bulkRows (listRunE demoSys []).2 =
      [["*", "s1", "bash -l", "n/a", "uptermd.example.com:22"],
        ["", "s2", "bash", "n/a", "uptermd.example.com:2222"],
        ["", "s3", "bash", "tmux attach", "uptermd.example.com"]] := by
  refine ⟨by decide, rfl, rfl, by decide, by decide⟩

/-- C9, amended: `session current` with an empty admin-socket flag fails with
`required flag(s) "admin-socket" not set` and otherwise is `displaySession` of the flag;
`session info` without a name fails with `missing session name`, fails with the error of
`UptermDir`, and otherwise is `displaySession` of the named socket; `displaySession` returns
the error of the first of its three steps that fails (read the admin socket, encode the
identifier, split the host into host and port) and returns nil exactly when all three succeed;
`session list` returns nil exactly when the base directory is found and can be read: a
directory whose admin socket cannot be read is skipped. -/
theorem session_commands_fail_on_failing_step (sys : Sys) :
    (∀ args, currentCmd sys "" args =
      (some (.leaf "required flag(s) \"admin-socket\" not set"), [])) ∧
    (∀ flag args, flag ≠ "" → currentCmd sys flag args = displaySession sys flag) ∧
    infoRunE sys [] = (some (.leaf "missing session name"), []) ∧
    (∀ name rest e, sys.UptermDir = .error e → infoRunE sys (name :: rest) = (some e, [])) ∧
    (∀ name rest dir, sys.UptermDir = .ok dir →
      infoRunE sys (name :: rest) = displaySession sys (sys.AdminSocketFile dir name)) ∧
    (∀ path e, sys.AdminGetSession path = .error e → displaySession sys path = (some e, [])) ∧
    (∀ path sess e, sys.AdminGetSession path = .ok sess →
      sys.EncodeIdentifierSession sess = .error e → displaySession sys path = (some e, [])) ∧
    (∀ path sess user e, sys.AdminGetSession path = .ok sess →
      sys.EncodeIdentifierSession sess = .ok user → sys.SplitHostPort sess.Host = .error e →
      displaySession sys path = (some e, [])) ∧
    (∀ path, (displaySession sys path).1 = none ↔
      ∃ sess user hp, sys.AdminGetSession path = .ok sess ∧
        sys.EncodeIdentifierSession sess = .ok user ∧ sys.SplitHostPort sess.Host = .ok hp) ∧
    (∀ args, (listRunE sys args).1 = none ↔
      ∃ dir files, sys.UptermDir = .ok dir ∧ sys.ReadDir dir = .ok files) ∧
    (∀ args e, sys.UptermDir = .error e → listRunE sys args = (some e, [])) ∧
    (∀ args dir e, sys.UptermDir = .ok dir → sys.ReadDir dir = .error e →
      listRunE sys args = (some e, [])) ∧
    (∀ dir cur file files result e, file.IsDir = true →
      sys.AdminGetSession (sys.AdminSocketFile dir file.Name) = .error e →
      listSessionsLoop sys dir cur (file :: files) result =
        listSessionsLoop sys dir cur files result) := by
  refine ⟨?_, ?_, ?_, ?_, ?_, ?_, ?_, ?_, ?_, ?_, ?_, ?_, ?_⟩
  · intro args
    rfl
  · intro flag args hflag
    simp [currentCmd, validateCurrentRequiredFlags, hflag, currentRunE]
  · rfl
  · intro name rest e h
    simp [infoRunE, h]
  · intro name rest dir h
    simp [infoRunE, h]
  · intro path e h
    simp [displaySession, session_eq, h]
  · intro path sess e h he
    simp [displaySession, session_eq, h, he]
  · intro path sess user e h hu hp
    simp [displaySession, session_eq, h, hu, hp]
  · intro path
    cases hs : sys.AdminGetSession path with
    | error e => simp [displaySession, session_eq, hs]
    | ok sess =>
      cases hu : sys.EncodeIdentifierSession sess with
      | error e => simp [displaySession, session_eq, hs, hu]
      | ok user =>
        cases hp : sys.SplitHostPort sess.Host with
        | error e => simp [displaySession, session_eq, hs, hu, hp]
        | ok hp2 =>
          obtain ⟨host, port⟩ := hp2
          rw [displaySession_ok sys path sess user host port hs hu hp]
          simp [hu, hp]
  · intro args
    cases hd : sys.UptermDir with
    | error e => simp [listRunE, hd]
    | ok dir =>
      cases hr : sys.ReadDir dir with
      | error e => simp [listRunE, hd, listSessions, hr]
      | ok files =>
        simp only [listRunE, hd, listSessions, hr]
        split <;> simp [hr]
  · intro args e h
    simp [listRunE, h]
  · intro args dir e h hr
    simp [listRunE, h, listSessions, hr]
  · intro dir cur file files result e hdir h
    simp [listSessionsLoop, hdir, session_eq, h]

/-- C9 amended, run on the demo machine: `session current` on the socket of `stale` fails with
the error of the admin socket, `session info s3` fails because the host of `s3` has no
port. -/
theorem session_commands_fail_on_failing_step_witness :
    currentCmd demoSys "/home/alice/.upterm/stale.sock" [] =
      (some (.leaf "connection refused"), []) ∧
    infoRunE demoSys ["s3"] = (some (.leaf "missing port in address"), []) := by
  have h := session_commands_fail_on_failing_step demoSys
  constructor
  · rw [h.2.1 "/home/alice/.upterm/stale.sock" [] (by decide)]
    exact h.2.2.2.2.2.1 _ _ rfl
  · rw [h.2.2.2.2.1 "s3" [] "/home/alice/.upterm" rfl]
    exact h.2.2.2.2.2.2.2.1 _ demoSession3 "s3:10.0.0.1:22" _ rfl rfl rfl

/-- C10 as stated fails in its "exactly when": the force command of `s2` is the one word
`n/a`, which does not join to the empty string, and the row shows `n/a`. -/
theorem force_command_row_na_for_nonempty_command :
    session demoSys "/home/alice/.upterm/s2.sock" = .ok demoSession2 ∧
    stringsJoin demoSession2.ForceCommand " " ≠ "" ∧
    shownValue "Force Command:" (displaySession demoSys "/home/alice/.upterm/s2.sock").2 =
      some "n/a" := by
  refine ⟨rfl, by decide, by decide⟩

/-- C10, amended: for a session whose host splits into `(host, port)` and whose encoded
identifier is `user`, `displaySession` returns nil and its row `SSH Session:` shows
`ssh <user>@<host>` when `port` is the string `22` and `ssh <user>@<host> -p <port>` for every
other port; its row `Force Command:` shows `naIfEmpty` of the force command joined with
blanks, where `naIfEmpty` returns `n/a` for the empty string and its argument otherwise: the
row shows `n/a` exactly when the force command joins to the empty string or to `n/a`
itself. -/
theorem displaySession_ssh_command_and_force_row (sys : Sys) (path : String)
    (sess : APIGetSessionResponse) (user host port : String)
    (hs : sys.AdminGetSession path = .ok sess)
    (hu : sys.EncodeIdentifierSession sess = .ok user)
    (hp : sys.SplitHostPort sess.Host = .ok (host, port)) :
    (displaySession sys path).1 = none ∧
    (port = "22" →
      shownValue "SSH Session:" (displaySession sys path).2 =
        some ("ssh " ++ user ++ "@" ++ host)) ∧
    (port ≠ "22" →
      shownValue "SSH Session:" (displaySession sys path).2 =
        some ("ssh " ++ user ++ "@" ++ host ++ " -p " ++ port)) ∧
    shownValue "Force Command:" (displaySession sys path).2 =
      some (naIfEmpty (stringsJoin sess.ForceCommand " ")) ∧
    naIfEmpty "" = "n/a" ∧
    (∀ s, s ≠ "" → naIfEmpty s = s) ∧
    (shownValue "Force Command:" (displaySession sys path).2 = some "n/a" ↔
      stringsJoin sess.ForceCommand " " = "" ∨ stringsJoin sess.ForceCommand " " = "n/a") := by
  rw [displaySession_ok sys path sess user host port hs hu hp]
  have hforce : ∀ v : String,
      shownValue "Force Command:"
        [Out.SetHeader ["=== " ++ sess.SessionID], Out.SetHeaderLine false,
          Out.SetColWidth v.utf8ByteSize,
          Out.SetBorder false, Out.SetAlignment Align.ALIGN_LEFT, Out.SetRowSeparator "",
          Out.SetCenterSeparator "", Out.SetColumnSeparator "", Out.SetNoWhiteSpace true,
          Out.AppendBulk
            [["Command:", stringsJoin sess.Command " "],
              ["Force Command:", naIfEmpty (stringsJoin sess.ForceCommand " ")],
              ["Host:", sess.Host],
              ["SSH Session:", v]],
          Out.Render] = some (naIfEmpty (stringsJoin sess.ForceCommand " ")) := by
    intro v
    simp [shownValue, bulkRows, List.find?]
  have hssh : ∀ v : String,
      shownValue "SSH Session:"
        [Out.SetHeader ["=== " ++ sess.SessionID], Out.SetHeaderLine false,
          Out.SetColWidth v.utf8ByteSize,
          Out.SetBorder false, Out.SetAlignment Align.ALIGN_LEFT, Out.SetRowSeparator "",
          Out.SetCenterSeparator "", Out.SetColumnSeparator "", Out.SetNoWhiteSpace true,
          Out.AppendBulk
            [["Command:", stringsJoin sess.Command " "],
              ["Force Command:", naIfEmpty (stringsJoin sess.ForceCommand " ")],
              ["Host:", sess.Host],
              ["SSH Session:", v]],
          Out.Render] = some v := by
    intro v
    simp [shownValue, bulkRows, List.find?]
  have hna : ∀ s, s ≠ "" → naIfEmpty s = s := by
    intro s hne
    simp [naIfEmpty, hne]
  refine ⟨rfl, ?_, ?_, hforce _, by decide, hna, ?_⟩
  · intro h22
    rw [hssh]
    simp [h22]
  · intro h22
    rw [hssh]
    simp [h22]
  · rw [hforce]
    by_cases he : stringsJoin sess.ForceCommand " " = ""
    · rw [he]
      simp [naIfEmpty]
    · rw [hna _ he]
      simp [he]

/-- C10 amended, run on the sessions `s1` (port 22) and `s2` (port 2222). -/
theorem displaySession_ssh_command_and_force_row_witness :
    shownValue "SSH Session:" (displaySession demoSys "/home/alice/.upterm/s1.sock").2 =
      some ("ssh " ++ "s1:10.0.0.1:22" ++ "@" ++ "uptermd.example.com") ∧
    shownValue "SSH Session:" (displaySession demoSys "/home/alice/.upterm/s2.sock").2 =
      some ("ssh " ++ "s2:10.0.0.1:22" ++ "@" ++ "uptermd.example.com" ++ " -p " ++ "2222") :=
  ⟨(displaySession_ssh_command_and_force_row demoSys "/home/alice/.upterm/s1.sock"
      demoSession1 "s1:10.0.0.1:22" "uptermd.example.com" "22" rfl rfl rfl).2.1 rfl,
    (displaySession_ssh_command_and_force_row demoSys "/home/alice/.upterm/s2.sock"
      demoSession2 "s2:10.0.0.1:22" "uptermd.example.com" "2222" rfl rfl rfl).2.2.1
        (by decide)⟩

end Upterm
